import Mathlib

set_option maxHeartbeats 1000000

/- Verification of the `frame` package of the webcam repository: a shallow
embedding of the packed-RGB3 framer and of the Snapper capture pipeline
(both in frame/rgb3.go), with theorems checking the design document's
claims against the embedded code. Machine bytes are modelled as `Nat`
(the decoder never does arithmetic on pixel bytes), buffers as `List Nat`,
Go's `nil`-able release callbacks as `Option ρ`, and an invocation of a
callback is recorded by returning it in a list of performed actions. -/

variable {ρ : Type}

/-- Error returned by the RGB3 framer's length check
(`Wrong frame length (exp: %d, read %d)`), carrying the expected and the
actually read length. -/
inductive FrameError where
  | wrongLength (exp read : Nat) : FrameError
deriving DecidableEq, Repr

/-- `color.RGBA`: one decoded pixel sample. -/
structure RGBA where
  r : Nat
  g : Nat
  b : Nat
  a : Nat
deriving DecidableEq, Repr

/-- `image.Rectangle` as produced by `image.Rect(0, 0, w, h)`. -/
structure Rect where
  x0 : Nat
  y0 : Nat
  x1 : Nat
  y1 : Nat
deriving DecidableEq, Repr

/-- The only color model the RGB3 framer uses (`color.RGBAModel`). -/
inductive ColorModel where
  | RGBAModel
deriving DecidableEq, Repr

/-- The Go struct `fRGB3`: a decoded frame borrowing the raw buffer.
`width` is the struct field that `At` uses as the row stride (`bw` at
construction time); `release` is the optional release callback. -/
structure fRGB3 (ρ : Type) where
  model : ColorModel
  b : Rect
  width : Nat
  frame : List Nat
  release : Option ρ
deriving DecidableEq, Repr

/-- `fRGB3.At`: `i := f.width*y*3 + x*3`, then the three bytes at
`i, i+1, i+2` become red, green, blue with alpha `0xFF`. Out-of-range
reads (which would panic in Go) are modelled by `getD`; the safety claim
shows the indices stay in range for accepted buffers. -/
def fRGB3.At (f : fRGB3 ρ) (x y : Nat) : RGBA :=
  let i := f.width * y * 3 + x * 3
  ⟨f.frame.getD i 0, f.frame.getD (i + 1) 0, f.frame.getD (i + 2) 0, 0xFF⟩

/-- `fRGB3.Release`: invokes the stored callback when one is present.
The result lists the callbacks actually invoked. -/
def fRGB3.Release (f : fRGB3 ρ) : List ρ := f.release.toList

/-- `fRGB3.ColorModel`. -/
def fRGB3.ColorModel (f : fRGB3 ρ) : ColorModel := f.model

/-- `fRGB3.Bounds`. -/
def fRGB3.Bounds (f : fRGB3 ρ) : Rect := f.b

/-- Go's `n &^ 31` / `n &^ 15` on non-negative ints clears the low bits:
`alignDown n a = n - n % a`. -/
def alignDown (n a : Nat) : Nat := n - n % a

/-- `frameRGB3`: wraps a raw buffer in an `fRGB3` after the length check;
on mismatch the release callback (if non-nil) is invoked (`defer rel()`)
and a `wrongLength` error carrying expected and actual sizes is returned.
The second component lists the release callbacks invoked during the call. -/
def frameRGB3 (size bw w h : Nat) (b : List Nat) (rel : Option ρ) :
    Except FrameError (fRGB3 ρ) × List ρ :=
  if b.length ≠ size then
    (.error (.wrongLength size b.length), rel.toList)
  else
    (.ok ⟨ColorModel.RGBAModel, ⟨0, 0, w, h⟩, bw, b, rel⟩, [])

/-- The `bw` variable of `newFramerRGB3`: declared `var bw int` and only
assigned in the padded branch (`bw = (w + 31) &^ 31`), so in the unpadded
branch it keeps Go's zero value `0`. -/
def rgb3BW (padded : Bool) (w : Nat) : Nat :=
  if padded then alignDown (w + 31) 32 else 0

/-- The `size` variable of `newFramerRGB3`:
padded: `3 * bw * ((h + 15) &^ 15)`; unpadded: `3 * h * w`. -/
def rgb3Size (padded : Bool) (w h : Nat) : Nat :=
  if padded then 3 * rgb3BW padded w * alignDown (h + 15) 16 else 3 * h * w

/-- `newFramerRGB3`: precomputes `size` and `bw` from the padding
configuration and returns the framer closure calling `frameRGB3`. -/
def newFramerRGB3 (padded : Bool) (w h : Nat) :
    List Nat → Option ρ → Except FrameError (fRGB3 ρ) × List ρ :=
  fun b rel => frameRGB3 (rgb3Size padded w h) (rgb3BW padded w) w h b rel

/-- `canFit`: fixed-size exact match, or stepped-range match. -/
def canFit (min max step val : Nat) : Bool :=
  if min == max && step == 0 && val == min then true
  else step != 0 && decide (min ≤ val) && decide (val ≤ max) &&
    (val - min) % step == 0

/-- `webcam.FrameSize`: the driver-reported width/height ranges. -/
structure FrameSize where
  MinWidth : Nat
  MaxWidth : Nat
  StepWidth : Nat
  MinHeight : Nat
  MaxHeight : Nat
  StepHeight : Nat
deriving DecidableEq, Repr

/-- `Match`: both dimensions must fit their driver-reported ranges. -/
def Match (fs : FrameSize) (w h : Nat) : Bool :=
  canFit fs.MinWidth fs.MaxWidth fs.StepWidth w &&
  canFit fs.MinHeight fs.MaxHeight fs.StepHeight h

/- ## The Snapper capture pipeline -/

/-- The `snap` struct sent over the stream channel: a raw buffer plus the
driver's buffer index. -/
structure snap where
  frame : List Nat
  index : Nat
deriving DecidableEq, Repr

/-- Release-callback action passed by `Snap` to the framer: it forwards to
`c.cam.ReleaseFrame(snap.index)`. -/
inductive DriverCall where
  | releaseFrame (index : Nat) : DriverCall
deriving DecidableEq, Repr

/-- The `stop` channel (`make(chan struct{}, 1)`): a one-slot buffer of
tokens plus a closed flag. -/
structure StopChan where
  buf : Nat
  closed : Bool
deriving DecidableEq, Repr

/-- The unbuffered `stream` channel, tracked by whether it has been
closed (rendezvous contents are never queued). -/
structure StreamChan where
  closed : Bool
deriving DecidableEq, Repr

/-- The `Snapper` struct state: `cam == none` models the nil device
handle ("closed"); `stop`/`stream` are `none` until the channels are
created by `Open`. The `framer` closure installed by `Open` is passed to
the `Snap` model explicitly. -/
structure Snapper where
  cam : Option Unit
  stop : Option StopChan
  stream : Option StreamChan
  Timeout : Nat
  Buffers : Nat
deriving DecidableEq, Repr

/-- `NewSnapper`: default timeout 5 and buffer count 16, closed. -/
def NewSnapper : Snapper := ⟨none, none, none, 5, 16⟩

/-- Observable events of the pipeline: driver calls, the registry call
`GetFramer`, and the channel operations of the shutdown path. -/
inductive Ev where
  | openDev
  | getFormats
  | getFrameSizes (pf : Nat)
  | setImageFormat (pf w h : Nat)
  | reportAdjusted (npf nw nh : Nat)
  | getFramer (fmt : String) (w h stride size : Nat)
  | setBufferCount (n : Nat)
  | setAutoWhiteBalance (b : Bool)
  | startStreaming
  | closeStream
  | releaseFrame (i : Nat)
  | stopStreaming
  | closeDev
  | startCapture
deriving DecidableEq, Repr

/-- `Snapper.Close`. If the handle is nil: nothing happens, no driver
call is made. Otherwise: a stop token is sent on the buffered stop
channel, the stream channel is drained until it reports closed —
`pending` stands for the frames received during that drain, each released
back to the driver — then `StopStreaming`, `cam.Close()` and the handle
is cleared. Returns the new state and the events performed. -/
def Snapper.Close (c : Snapper) (pending : List snap) : Snapper × List Ev :=
  match c.cam with
  | none => (c, [])
  | some _ =>
      ({ c with cam := none,
                stop := c.stop.map (fun s => { s with buf := s.buf + 1 }),
                stream := some ⟨true⟩ },
       pending.map (fun f => Ev.releaseFrame f.index) ++
         [Ev.stopStreaming, Ev.closeDev])

/-- Driver / registry collaborators of `Open`, modelled at the interface
the spec gives for them (`webcam.Open`, `GetSupportedFormats`,
`GetSupportedFrameSizes`, `SetImageFormat`, `StartStreaming`) together
with the two registry helpers whose bodies live outside this file's
source (`FourCCToPixelFormat`, `GetFramer`): each is a function whose
result the pipeline code interrogates. Errors are opaque values. -/
structure OpenEnv where
  fourCCToPixelFormat : String → Except Nat Nat
  openDevice : Except Nat Unit
  formats : List Nat
  frameSizes : Nat → List FrameSize
  setImageFormat : Nat → Nat → Nat → Except Nat (Nat × Nat × Nat × Nat × Nat)
  getFramer : String → Nat → Nat → Nat → Nat → Except Nat Unit
  startStreaming : Except Nat Unit

/-- Errors `Open` can return: its own formatted errors for an
unsupported format or resolution, or an error propagated verbatim from a
collaborator. -/
inductive OpenError where
  | unsupportedFormat (fmt : String)
  | unsupportedResolution (w h : Nat)
  | driver (e : Nat)
deriving DecidableEq, Repr

/-- The deferred error handler of `Open`: `close(c.stream)` followed by
`c.Close()`. At this point the capture goroutine has not been started,
so the drain loop of `Close` receives nothing (`pending = []`). -/
def Snapper.rollback (c : Snapper) : Snapper × List Ev :=
  let c1 := { c with stream := some ⟨true⟩ }
  let r := Snapper.Close c1 []
  (r.1, Ev.closeStream :: r.2)

/-- `Snapper.Open` transcribed step by step: resolve the four-CC, close
first if already open (`pending0` abstracts what that drain receives),
open the device, create the stop (buffered, capacity 1) and stream
channels, check the supported formats, match the supported frame sizes,
`SetImageFormat` (reporting, non-fatally, adjusted values), `GetFramer`
with the requested width/height and the negotiated stride/size, buffer
count and auto-white-balance configuration, `StartStreaming`, and launch
of the capture goroutine. Every failure after the device was acquired
runs the deferred rollback. Returns (result, final state, event log). -/
def Snapper.Open (env : OpenEnv) (c : Snapper) (pending0 : List snap)
    (format : String) (w h : Nat) :
    Except OpenError Unit × Snapper × List Ev :=
  match env.fourCCToPixelFormat format with
  | .error e => (.error (.driver e), c, [])
  | .ok pf =>
    let s0 :=
      match c.cam with
      | some _ => Snapper.Close c pending0
      | none => (c, [])
    match env.openDevice with
    | .error e => (.error (.driver e), s0.1, s0.2 ++ [Ev.openDev])
    | .ok _ =>
      let c1 : Snapper :=
        { s0.1 with cam := some (), stop := some ⟨0, false⟩,
                    stream := some ⟨false⟩ }
      let log1 := s0.2 ++ [Ev.openDev, Ev.getFormats]
      if env.formats.contains pf = false then
        let r := Snapper.rollback c1
        (.error (.unsupportedFormat format), r.1, log1 ++ r.2)
      else
        let log2 := log1 ++ [Ev.getFrameSizes pf]
        if (env.frameSizes pf).any (fun fs => Match fs w h) = false then
          let r := Snapper.rollback c1
          (.error (.unsupportedResolution w h), r.1, log2 ++ r.2)
        else
          match env.setImageFormat pf w h with
          | .error e =>
            let r := Snapper.rollback c1
            (.error (.driver e), r.1,
              log2 ++ [Ev.setImageFormat pf w h] ++ r.2)
          | .ok (npf, nw, nh, stride, size) =>
            let log3 := log2 ++ [Ev.setImageFormat pf w h] ++
              (if npf ≠ pf ∨ w ≠ nw ∨ h ≠ nh
               then [Ev.reportAdjusted npf nw nh] else [])
            let log4 := log3 ++ [Ev.getFramer format w h stride size]
            match env.getFramer format w h stride size with
            | .error e =>
              let r := Snapper.rollback c1
              (.error (.driver e), r.1, log4 ++ r.2)
            | .ok _ =>
              let log5 := log4 ++
                [Ev.setBufferCount c1.Buffers, Ev.setAutoWhiteBalance true]
              match env.startStreaming with
              | .error e =>
                let r := Snapper.rollback c1
                (.error (.driver e), r.1, log5 ++ [Ev.startStreaming] ++ r.2)
              | .ok _ =>
                (.ok (), c1,
                  log5 ++ [Ev.startStreaming, Ev.startCapture])

/-- Errors returned by `Snap`: the channel was closed
(`No frame received`) or the framer rejected the buffer. -/
inductive SnapError where
  | noFrameReceived
  | frameError (e : FrameError)
deriving DecidableEq, Repr

/-- `Snapper.Snap`: receive from the stream channel (`recv = none` means
the channel was observed closed); on closure fail with the
no-frame-received error, otherwise invoke the installed framer on the
raw buffer with a release callback forwarding to
`c.cam.ReleaseFrame(snap.index)`. -/
def Snapper.Snap
    (framer : List Nat → Option DriverCall →
      Except FrameError (fRGB3 DriverCall) × List DriverCall)
    (recv : Option snap) : Except SnapError (fRGB3 DriverCall) :=
  match recv with
  | none => .error .noFrameReceived
  | some s =>
    match framer s.frame (some (DriverCall.releaseFrame s.index)) with
    | (.ok f, _) => .ok f
    | (.error e, _) => .error (.frameError e)

/- ## The capture goroutine -/

/-- Outcome of `WaitForFrame`: success, `*webcam.Timeout`, or any other
error (which the loop escalates via `panic`). -/
inductive WaitRes where
  | ok
  | timeout
  | fatal (e : Nat)
deriving DecidableEq, Repr

/-- One iteration's environment: the driver's wait outcome, the frame
`GetFrame` would return, whether a consumer is parked on the unbuffered
stream channel, whether a stop token is pending, and the scheduler's
tie-break when both `select` cases are ready (`true` = deliver). -/
structure CaptureEnv where
  wait : WaitRes
  getFrame : Except Nat snap
  consumerReady : Bool
  stopPending : Bool
  choice : Bool
deriving Repr

/-- What one iteration of the capture loop does. -/
inductive CaptureOut where
  | reloop
  | delivered (s : snap)
  | stopped (released : Nat)
  | dropped (released : Nat)
  | fatal (e : Nat)
deriving DecidableEq, Repr

/-- One iteration of `Snapper.capture`: timeout re-loops; a fatal wait or
`GetFrame` error panics; otherwise the non-blocking `select` sends to the
stream if a consumer is ready (tie-broken by the scheduler against a
pending stop), takes the stop branch if a stop token is pending
(releasing the buffer and closing the stream), and otherwise hits
`default`, releasing the buffer immediately. -/
def captureIter (e : CaptureEnv) : CaptureOut :=
  match e.wait with
  | .timeout => .reloop
  | .fatal err => .fatal err
  | .ok =>
    match e.getFrame with
    | .error err => .fatal err
    | .ok f =>
      if e.consumerReady && (!e.stopPending || e.choice) then .delivered f
      else if e.stopPending then .stopped f.index
      else .dropped f.index

/-- Run the capture loop over a list of per-iteration environments,
numbering iterations from `k`: returns the frames delivered on the
stream (tagged with their iteration number), the buffer indices released
by the loop, and whether the loop closed the stream channel. The loop
ends at a stop (closing the stream) or a panic. -/
def captureRunAux (k : Nat) : List CaptureEnv → List (Nat × snap) × List Nat × Bool
  | [] => ([], [], false)
  | e :: rest =>
    match captureIter e with
    | .reloop => captureRunAux (k + 1) rest
    | .delivered s =>
      let r := captureRunAux (k + 1) rest
      ((k, s) :: r.1, r.2)
    | .stopped i => ([], [i], true)
    | .dropped i =>
      let r := captureRunAux (k + 1) rest
      (r.1, i :: r.2.1, r.2.2)
    | .fatal _ => ([], [], false)

/-- The capture loop from its first iteration. -/
def captureRun (es : List CaptureEnv) : List (Nat × snap) × List Nat × Bool :=
  captureRunAux 0 es

/- ## Theorems -/

/-- Helper: a successful `frameRGB3` call means the buffer had exactly the
expected length, and the resulting frame stores `bw` as its width field
and borrows the buffer and the release callback. -/
theorem frameRGB3_ok (size bw w h : Nat) (b : List Nat) (rel : Option ρ)
    (f : fRGB3 ρ) (hok : (frameRGB3 size bw w h b rel).1 = .ok f) :
    b.length = size ∧ f = ⟨ColorModel.RGBAModel, ⟨0, 0, w, h⟩, bw, b, rel⟩ := by
  by_cases hlen : b.length = size
  · refine ⟨hlen, ?_⟩
    simp [frameRGB3, hlen] at hok
    exact hok.symm
  · simp [frameRGB3, hlen] at hok

/-- C4: `canFit` returns true exactly for a fixed-size exact match or a
stepped in-range match; the three concrete examples; and `Match` holds
exactly when both dimensions independently fit. -/
theorem canFit_match_spec :
    (∀ min max step val : Nat,
      canFit min max step val = true ↔
        ((min = max ∧ step = 0 ∧ val = min) ∨
         (step ≠ 0 ∧ min ≤ val ∧ val ≤ max ∧ (val - min) % step = 0)))
    ∧ canFit 100 100 0 100 = true
    ∧ canFit 100 200 10 105 = false
    ∧ canFit 100 200 10 110 = true
    ∧ ∀ fs w h, Match fs w h = true ↔
        (canFit fs.MinWidth fs.MaxWidth fs.StepWidth w = true ∧
         canFit fs.MinHeight fs.MaxHeight fs.StepHeight h = true) := by
  refine ⟨?_, by decide, by decide, by decide, ?_⟩
  · intro mn mx st v
    simp only [canFit]
    split
    · next hc =>
        simp only [Bool.and_eq_true, beq_iff_eq] at hc
        simp only [true_iff]
        exact Or.inl ⟨hc.1.1, hc.1.2, hc.2⟩
    · next hc =>
        simp only [Bool.and_eq_true, beq_iff_eq, bne_iff_ne,
          decide_eq_true_eq] at hc ⊢
        constructor
        · rintro ⟨⟨⟨h1, h2⟩, h3⟩, h4⟩
          exact Or.inr ⟨h1, h2, h3, h4⟩
        · rintro (⟨h1, h2, h3⟩ | ⟨h1, h2, h3, h4⟩)
          · exact absurd ⟨⟨h1, h2⟩, h3⟩ hc
          · exact ⟨⟨⟨h1, h2⟩, h3⟩, h4⟩
  · intro fs w h
    simp [Match, Bool.and_eq_true]

/-- C5: with padding enabled the expected size is
`3 * roundedStride * roundedHeight`, where the rounded stride is the
least multiple of 32 that is `≥ w` and the rounded row count is the
least multiple of 16 that is `≥ h`; for `w = 50, h = 10` the stride is
64, the row count 16 and the size `3*64*16 = 3072`. -/
theorem rgb3_padded_size_spec :
    (∀ w h : Nat,
      rgb3Size true w h = 3 * rgb3BW true w * alignDown (h + 15) 16
      ∧ rgb3BW true w % 32 = 0 ∧ w ≤ rgb3BW true w ∧ rgb3BW true w < w + 32
      ∧ alignDown (h + 15) 16 % 16 = 0 ∧ h ≤ alignDown (h + 15) 16
      ∧ alignDown (h + 15) 16 < h + 16)
    ∧ rgb3BW true 50 = 64 ∧ alignDown (10 + 15) 16 = 16
    ∧ rgb3Size true 50 10 = 3072 := by
  refine ⟨?_, by decide, by decide, by decide⟩
  intro w h
  refine ⟨rfl, ?_, ?_, ?_, ?_, ?_, ?_⟩
  · show alignDown (w + 31) 32 % 32 = 0
    unfold alignDown; omega
  · show w ≤ alignDown (w + 31) 32
    unfold alignDown; omega
  · show alignDown (w + 31) 32 < w + 32
    unfold alignDown; omega
  · unfold alignDown; omega
  · unfold alignDown; omega
  · unfold alignDown; omega

/-- Helper: the two behaviours of the framer produced by `newFramerRGB3`,
by whether the buffer length matches the precomputed size. -/
theorem rgb3_framer_cases (padded : Bool) (w h : Nat) (b : List Nat)
    (rel : Option ρ) :
    (b.length ≠ rgb3Size padded w h →
      newFramerRGB3 padded w h b rel =
        (.error (.wrongLength (rgb3Size padded w h) b.length), rel.toList))
    ∧ (b.length = rgb3Size padded w h →
      ∃ f, newFramerRGB3 padded w h b rel = (.ok f, []) ∧
        fRGB3.Release f = rel.toList) := by
  constructor
  · intro hne
    simp [newFramerRGB3, frameRGB3, hne]
  · intro heq
    refine ⟨⟨ColorModel.RGBAModel, ⟨0, 0, w, h⟩, rgb3BW padded w, b, rel⟩,
      ?_, rfl⟩
    simp [newFramerRGB3, frameRGB3, heq]

/-- C2: the framer produced by `newFramerRGB3` rejects every buffer whose
length differs from the precomputed size with an error carrying the
expected and the actual length, invoking the release callback exactly
once when one was supplied; it accepts a buffer of the exact size
without invoking the callback, and the resulting frame's `Release`
forwards to the supplied callback. -/
theorem rgb3_length_validation (padded : Bool) (w h : Nat) (b : List Nat)
    (rel : Option ρ) :
    (b.length ≠ rgb3Size padded w h →
      newFramerRGB3 padded w h b rel =
        (.error (.wrongLength (rgb3Size padded w h) b.length), rel.toList))
    ∧ (b.length = rgb3Size padded w h →
      ∃ f, newFramerRGB3 padded w h b rel = (.ok f, []) ∧
        fRGB3.Release f = rel.toList) :=
  rgb3_framer_cases padded w h b rel

/-- Witness for C2 at `padded = false, w = h = 1` (expected size 3): the
one-byte buffer is rejected with `wrongLength 3 1` and the callback is
invoked once; the three-byte buffer is accepted with no invocation and a
forwarding `Release`. -/
theorem rgb3_length_validation_witness :
    newFramerRGB3 false 1 1 [0] (some 0) =
      ((.error (.wrongLength 3 1) : Except FrameError (fRGB3 Nat)), [0])
    ∧ ∃ f, newFramerRGB3 false 1 1 [5, 6, 7] (some 0) = (.ok f, []) ∧
        fRGB3.Release f = [0] :=
  ⟨(rgb3_length_validation false 1 1 [0] (some 0)).1 (by decide),
   (rgb3_length_validation false 1 1 [5, 6, 7] (some 0)).2 (by decide)⟩

/-- C1 (divergence witness): with padding disabled the `bw` variable of
`newFramerRGB3` keeps Go's zero value, so the decoded frame's `At`
addresses every row with stride 0. On the 12-byte buffer `0,...,11` for a
2x2 unpadded frame, `At(0, 1)` returns the bytes at offset 0 (`0,1,2`),
whereas offset `3*(width*y+x) = 6` holds the bytes `6,7,8`. -/
theorem rgb3_unpadded_at_stride_zero :
    (newFramerRGB3 false 2 2 (List.range 12) (none : Option Unit)).1.map
      (fun f => fRGB3.At f 0 1) = .ok ⟨0, 1, 2, 255⟩
    ∧ ((List.range 12).getD (3 * (2 * 1 + 0)) 0,
       (List.range 12).getD (3 * (2 * 1 + 0) + 1) 0,
       (List.range 12).getD (3 * (2 * 1 + 0) + 2) 0) = (6, 7, 8)
    ∧ RGBA.mk 0 1 2 255 ≠ RGBA.mk 6 7 8 255 :=
  ⟨rfl, rfl, by decide⟩

/-- C10: whenever the RGB3 framer accepts a buffer, the three byte
indices `At(x, y)` reads are strictly below the buffer length, for every
in-bounds coordinate, in both the padded and the unpadded configuration. -/
theorem rgb3_at_indices_in_bounds (padded : Bool) (w h x y : Nat)
    (b : List Nat) (rel : Option ρ) (f : fRGB3 ρ)
    (hx : x < w) (hy : y < h)
    (hok : (newFramerRGB3 padded w h b rel).1 = .ok f) :
    f.width * y * 3 + x * 3 < f.frame.length
    ∧ f.width * y * 3 + x * 3 + 1 < f.frame.length
    ∧ f.width * y * 3 + x * 3 + 2 < f.frame.length := by
  obtain ⟨hlen, hf⟩ := frameRGB3_ok (rgb3Size padded w h) (rgb3BW padded w)
    w h b rel f hok
  subst hf
  simp only [hlen]
  suffices hmain : rgb3BW padded w * y * 3 + x * 3 + 2 < rgb3Size padded w h by
    exact ⟨by omega, by omega, hmain⟩
  cases padded with
  | false =>
    simp only [rgb3BW, rgb3Size, if_neg, Bool.false_eq_true, not_false_iff,
      ite_false, Nat.zero_mul]
    have h1 : x + 1 ≤ h * w :=
      le_trans (by omega : x + 1 ≤ 1 * (x + 1))
        (Nat.mul_le_mul (by omega) (by omega))
    nlinarith [h1]
  | true =>
    simp only [rgb3BW, rgb3Size, if_true]
    have hwb : w ≤ alignDown (w + 31) 32 := by unfold alignDown; omega
    have hhb : h ≤ alignDown (h + 15) 16 := by unfold alignDown; omega
    have key : alignDown (w + 31) 32 * y + alignDown (w + 31) 32 ≤
        alignDown (w + 31) 32 * alignDown (h + 15) 16 := by
      have := Nat.mul_le_mul (Nat.le_refl (alignDown (w + 31) 32))
        (show y + 1 ≤ alignDown (h + 15) 16 by omega)
      rw [Nat.mul_add, Nat.mul_one] at this
      exact this
    nlinarith [key, hwb, hx]

/-- Witness for C10: the unpadded 1x1 frame over a 3-byte buffer, pixel
(0, 0). -/
theorem rgb3_at_indices_in_bounds_witness :
    (⟨ColorModel.RGBAModel, ⟨0, 0, 1, 1⟩, 0, [9, 9, 9],
        (none : Option Unit)⟩ : fRGB3 Unit).width * 0 * 3 + 0 * 3 <
      (⟨ColorModel.RGBAModel, ⟨0, 0, 1, 1⟩, 0, [9, 9, 9],
        (none : Option Unit)⟩ : fRGB3 Unit).frame.length :=
  (rgb3_at_indices_in_bounds false 1 1 0 0 [9, 9, 9] none
    ⟨ColorModel.RGBAModel, ⟨0, 0, 1, 1⟩, 0, [9, 9, 9], none⟩
    (by decide) (by decide) rfl).1

/-- C8: `Close` on an already-closed pipeline (nil device handle) makes
no driver call and leaves the state unchanged, whatever the drain would
have received; consequently a second `Close` right after any `Close` is
a no-op, so closing twice equals closing once. -/
theorem close_idempotent (c : Snapper) (p p2 : List snap)
    (hc : c.cam = none) :
    Snapper.Close c p = (c, [])
    ∧ Snapper.Close (Snapper.Close c p).1 p2 =
        ((Snapper.Close c p).1, []) := by
  have key : ∀ q : List snap, Snapper.Close c q = (c, []) := by
    intro q
    unfold Snapper.Close
    rw [hc]
  rw [key p]
  exact ⟨rfl, key p2⟩

/-- Witness for C8: the freshly constructed, closed `Snapper`. -/
theorem close_idempotent_witness :
    Snapper.Close NewSnapper [] = (NewSnapper, [])
    ∧ Snapper.Close (Snapper.Close NewSnapper []).1 [] =
        ((Snapper.Close NewSnapper []).1, []) :=
  close_idempotent NewSnapper [] [] rfl

/-- C9: `Snap` on a closed delivery channel returns the
no-frame-received error; on an arriving frame it invokes the installed
framer with a release callback forwarding to the driver's per-index
release, returning the decoded frame (whose `Release` performs that
driver release) or the decode error; and a completed `Close` of an open
pipeline leaves the delivery channel closed. -/
theorem snap_closed_channel_spec (padded : Bool) (w h : Nat) :
    Snapper.Snap (newFramerRGB3 padded w h) none = .error .noFrameReceived
    ∧ (∀ s : snap, s.frame.length = rgb3Size padded w h →
        ∃ f, Snapper.Snap (newFramerRGB3 padded w h) (some s) = .ok f
          ∧ fRGB3.Release f = [DriverCall.releaseFrame s.index])
    ∧ (∀ s : snap, s.frame.length ≠ rgb3Size padded w h →
        Snapper.Snap (newFramerRGB3 padded w h) (some s)
          = .error (.frameError (.wrongLength (rgb3Size padded w h)
              s.frame.length)))
    ∧ (∀ c : Snapper, ∀ p : List snap, c.cam ≠ none →
        ((Snapper.Close c p).1).stream = some ⟨true⟩) := by
  refine ⟨rfl, ?_, ?_, ?_⟩
  · intro s hlen
    obtain ⟨f, hf, hrel⟩ := (rgb3_framer_cases padded w h s.frame
      (some (DriverCall.releaseFrame s.index))).2 hlen
    refine ⟨f, ?_, by simpa using hrel⟩
    simp [Snapper.Snap, hf]
  · intro s hlen
    have hmis := (rgb3_framer_cases padded w h s.frame
      (some (DriverCall.releaseFrame s.index))).1 hlen
    simp [Snapper.Snap, hmis]
  · intro c p hc
    cases hcam : c.cam with
    | none => exact absurd hcam hc
    | some u => simp [Snapper.Close, hcam]

/-- Witness for C9 at `padded = false, w = h = 1`: the closed channel
yields the error, and the 3-byte frame with driver index 5 decodes with
a `Release` forwarding to `ReleaseFrame 5`. -/
theorem snap_closed_channel_spec_witness :
    Snapper.Snap (newFramerRGB3 false 1 1) none = .error .noFrameReceived
    ∧ (∃ f, Snapper.Snap (newFramerRGB3 false 1 1)
          (some ⟨[1, 2, 3], 5⟩) = .ok f
        ∧ fRGB3.Release f = [DriverCall.releaseFrame 5])
    ∧ ((Snapper.Close ⟨some (), some ⟨0, false⟩, some ⟨false⟩, 5, 16⟩
          []).1).stream = some ⟨true⟩ :=
  ⟨(snap_closed_channel_spec false 1 1).1,
   (snap_closed_channel_spec false 1 1).2.1 ⟨[1, 2, 3], 5⟩ (by decide),
   (snap_closed_channel_spec false 1 1).2.2.2
     ⟨some (), some ⟨0, false⟩, some ⟨false⟩, 5, 16⟩ [] (by simp)⟩

/-- Helper: every frame the capture loop delivers was delivered by an
iteration whose environment made `captureIter` take the delivery branch. -/
theorem captureRunAux_delivered (es : List CaptureEnv) :
    ∀ j k : Nat, ∀ s : snap, (k, s) ∈ (captureRunAux j es).1 →
      ∃ e, es.get? (k - j) = some e ∧ captureIter e = .delivered s ∧
        j ≤ k := by
  induction es with
  | nil =>
    intro j k s hmem
    simp [captureRunAux] at hmem
  | cons e rest ih =>
    intro j k s hmem
    unfold captureRunAux at hmem
    cases hit : captureIter e with
    | reloop =>
      rw [hit] at hmem
      obtain ⟨e2, h1, h2, h3⟩ := ih (j + 1) k s hmem
      refine ⟨e2, ?_, h2, by omega⟩
      have hidx : k - j = (k - (j + 1)) + 1 := by omega
      rw [hidx]
      simpa using h1
    | delivered s0 =>
      rw [hit] at hmem
      rcases List.mem_cons.mp hmem with heq | htail
      · cases heq
        refine ⟨e, ?_, hit, Nat.le_refl j⟩
        rw [Nat.sub_self]
        rfl
      · obtain ⟨e2, h1, h2, h3⟩ := ih (j + 1) k s htail
        refine ⟨e2, ?_, h2, by omega⟩
        have hidx : k - j = (k - (j + 1)) + 1 := by omega
        rw [hidx]
        simpa using h1
    | stopped i =>
      rw [hit] at hmem
      simp at hmem
    | dropped i =>
      rw [hit] at hmem
      obtain ⟨e2, h1, h2, h3⟩ := ih (j + 1) k s hmem
      refine ⟨e2, ?_, h2, by omega⟩
      have hidx : k - j = (k - (j + 1)) + 1 := by omega
      rw [hidx]
      simpa using h1
    | fatal err =>
      rw [hit] at hmem
      simp at hmem

/-- C6: an iteration that fetched a buffer while no consumer is parked
and no stop is pending releases it immediately and continues (the
non-blocking `select` falls through to `default`); a frame dropped at
iteration `k` is never among the frames any run delivers for a `Snap`
call. -/
theorem capture_drop_policy (e : CaptureEnv) (f : snap)
    (hw : e.wait = .ok) (hg : e.getFrame = .ok f)
    (hc : e.consumerReady = false) (hs : e.stopPending = false) :
    captureIter e = .dropped f.index
    ∧ ∀ es : List CaptureEnv, ∀ k : Nat, es.get? k = some e →
        ∀ s : snap, (k, s) ∉ (captureRun es).1 := by
  have hit : captureIter e = .dropped f.index := by
    unfold captureIter
    rw [hw, hg, hc, hs]
    simp
  refine ⟨hit, ?_⟩
  intro es k hk s hmem
  obtain ⟨e2, h1, h2, _⟩ := captureRunAux_delivered es 0 k s
    (by simpa [captureRun] using hmem)
  rw [Nat.sub_zero, hk] at h1
  cases h1
  rw [hit] at h2
  simp at h2

/-- Witness for C6: one iteration with a fetched buffer of index 7,
no parked consumer and no pending stop. -/
theorem capture_drop_policy_witness :
    captureIter ⟨.ok, .ok ⟨[1, 2, 3], 7⟩, false, false, true⟩ = .dropped 7
    ∧ (0, (⟨[1, 2, 3], 7⟩ : snap)) ∉
        (captureRun [⟨.ok, .ok ⟨[1, 2, 3], 7⟩, false, false, true⟩]).1 :=
  ⟨(capture_drop_policy ⟨.ok, .ok ⟨[1, 2, 3], 7⟩, false, false, true⟩
      ⟨[1, 2, 3], 7⟩ rfl rfl rfl rfl).1,
   (capture_drop_policy ⟨.ok, .ok ⟨[1, 2, 3], 7⟩, false, false, true⟩
      ⟨[1, 2, 3], 7⟩ rfl rfl rfl rfl).2
     [⟨.ok, .ok ⟨[1, 2, 3], 7⟩, false, false, true⟩] 0 rfl ⟨[1, 2, 3], 7⟩⟩

/-- Test driver: accepts the RGB3 request for 640x480 but negotiates an
adjusted resolution 1280x720 with stride 3840 and size 2764800. -/
def envAdjusted : OpenEnv where
  fourCCToPixelFormat := fun f => if f = "RGB3" then .ok 42 else .error 1
  openDevice := .ok ()
  formats := [42]
  frameSizes := fun _ => [⟨640, 640, 0, 480, 480, 0⟩]
  setImageFormat := fun pf _ _ => .ok (pf, 1280, 720, 3840, 2764800)
  getFramer := fun _ _ _ _ _ => .ok ()
  startStreaming := .ok ()

/-- C3 (counterexample): when the driver adjusts the resolution, `Open`
still resolves the decoder with the originally requested 640x480 — the
event log contains the `GetFramer` call with the requested dimensions and
no call with the negotiated 1280x720. -/
theorem open_framer_not_negotiated_counterexample :
    (Snapper.Open envAdjusted NewSnapper [] "RGB3" 640 480).1 = .ok ()
    ∧ (Snapper.Open envAdjusted NewSnapper [] "RGB3" 640 480).2.2 =
        [Ev.openDev, Ev.getFormats, Ev.getFrameSizes 42,
         Ev.setImageFormat 42 640 480, Ev.reportAdjusted 42 1280 720,
         Ev.getFramer "RGB3" 640 480 3840 2764800,
         Ev.setBufferCount 16, Ev.setAutoWhiteBalance true,
         Ev.startStreaming, Ev.startCapture]
    ∧ Ev.getFramer "RGB3" 1280 720 3840 2764800 ∉
        (Snapper.Open envAdjusted NewSnapper [] "RGB3" 640 480).2.2 := by
  refine ⟨rfl, rfl, ?_⟩
  decide

/-- C3 (amended): after a successful `SetImageFormat`, the decoder is
resolved using the requested format code and the originally requested
width and height together with the driver-negotiated stride and size,
and a decoder-construction error is propagated as `Open`'s result. -/
theorem open_framer_requested_dims (env : OpenEnv) (c : Snapper)
    (p0 : List snap) (format : String) (w h pf npf nw nh stride size : Nat)
    (h1 : env.fourCCToPixelFormat format = .ok pf)
    (h2 : env.openDevice = .ok ())
    (h3 : env.formats.contains pf = true)
    (h4 : (env.frameSizes pf).any (fun fs => Match fs w h) = true)
    (h5 : env.setImageFormat pf w h = .ok (npf, nw, nh, stride, size)) :
    Ev.getFramer format w h stride size ∈
      (Snapper.Open env c p0 format w h).2.2
    ∧ ∀ e, env.getFramer format w h stride size = .error e →
        (Snapper.Open env c p0 format w h).1 = .error (.driver e) := by
  constructor
  · cases hg : env.getFramer format w h stride size with
    | error e =>
      simp only [Snapper.Open, h1, h2, h3, h4, h5, hg]
      simp
    | ok u =>
      cases hs : env.startStreaming with
      | error e2 =>
        simp only [Snapper.Open, h1, h2, h3, h4, h5, hg, hs]
        simp
      | ok u2 =>
        simp only [Snapper.Open, h1, h2, h3, h4, h5, hg, hs]
        simp
  · intro e hg
    simp only [Snapper.Open, h1, h2, h3, h4, h5, hg]
    simp

/-- Witness for C3 (amended) on the adjusting driver. -/
theorem open_framer_requested_dims_witness :
    Ev.getFramer "RGB3" 640 480 3840 2764800 ∈
      (Snapper.Open envAdjusted NewSnapper [] "RGB3" 640 480).2.2 :=
  (open_framer_requested_dims envAdjusted NewSnapper [] "RGB3" 640 480
    42 42 1280 720 3840 2764800 rfl rfl (by decide) (by decide) rfl).1

/-- Test driver: everything succeeds until `StartStreaming`, which fails
with driver error 7 (no resolution adjustment). -/
def envStreamFail : OpenEnv where
  fourCCToPixelFormat := fun f => if f = "RGB3" then .ok 42 else .error 1
  openDevice := .ok ()
  formats := [42]
  frameSizes := fun _ => [⟨640, 640, 0, 480, 480, 0⟩]
  setImageFormat := fun pf w h => .ok (pf, w, h, 1920, 921600)
  getFramer := fun _ _ _ _ _ => .ok ()
  startStreaming := .error 7

/-- C7 (counterexample): when `Open` fails at the stream-start step the
device handle is released, but the stop channel — created earlier by this
`Open` — is left unclosed (it holds the queued stop token): only the
stream channel gets closed by the error path. -/
theorem open_failed_stop_chan_not_closed :
    (Snapper.Open envStreamFail NewSnapper [] "RGB3" 640 480).1 =
      .error (.driver 7)
    ∧ (Snapper.Open envStreamFail NewSnapper [] "RGB3" 640 480).2.1.cam =
        none
    ∧ (Snapper.Open envStreamFail NewSnapper [] "RGB3" 640 480).2.1.stop =
        some ⟨1, false⟩ :=
  ⟨rfl, rfl, rfl⟩

/-- Helper: the deferred error handler applied to a state holding the
device handle releases the handle, leaves the stream channel closed, and
performs exactly the stream close, `StopStreaming` and the device close. -/
theorem rollback_shape (c1 : Snapper) (hcam : c1.cam = some ()) :
    (Snapper.rollback c1).1.cam = none
    ∧ (Snapper.rollback c1).1.stream = some ⟨true⟩
    ∧ (Snapper.rollback c1).2 =
        [Ev.closeStream, Ev.stopStreaming, Ev.closeDev] := by
  simp [Snapper.rollback, Snapper.Close, hcam]

/-- Helper: a list whose reversal starts with `closeDev, stopStreaming,
closeStream` ends with `closeStream, stopStreaming, closeDev`. -/
theorem ends_with_rollback (l : List Ev)
    (h : l.reverse.take 3 =
      [Ev.closeDev, Ev.stopStreaming, Ev.closeStream]) :
    ∃ pre, l = pre ++ [Ev.closeStream, Ev.stopStreaming, Ev.closeDev] := by
  refine ⟨(l.reverse.drop 3).reverse, ?_⟩
  have h2 : l.reverse.take 3 ++ l.reverse.drop 3 = l.reverse :=
    List.take_append_drop 3 l.reverse
  calc l = l.reverse.reverse := (List.reverse_reverse l).symm
    _ = (l.reverse.take 3 ++ l.reverse.drop 3).reverse := by rw [h2]
    _ = (l.reverse.drop 3).reverse ++ (l.reverse.take 3).reverse := by
          rw [List.reverse_append]
    _ = (l.reverse.drop 3).reverse ++
          [Ev.closeStream, Ev.stopStreaming, Ev.closeDev] := by
          rw [h]
          rfl

/-- C7 (amended): whenever `Open` fails after the device handle was
acquired (the four-CC resolved and the driver open succeeded), the
pipeline is fully rolled back — the device handle is nil and the stream
channel is closed — and the event log ends with the stream-channel close
followed by the driver rollback (`StopStreaming`, device close); the
stop channel, however, is not closed (see the counterexample). -/
theorem open_failure_rolls_back (env : OpenEnv) (c : Snapper)
    (p0 : List snap) (format : String) (w h pf : Nat) (e : OpenError)
    (h1 : env.fourCCToPixelFormat format = .ok pf)
    (h2 : env.openDevice = .ok ())
    (hres : (Snapper.Open env c p0 format w h).1 = .error e) :
    (Snapper.Open env c p0 format w h).2.1.cam = none
    ∧ (Snapper.Open env c p0 format w h).2.1.stream = some ⟨true⟩
    ∧ ∃ pre, (Snapper.Open env c p0 format w h).2.2 =
        pre ++ [Ev.closeStream, Ev.stopStreaming, Ev.closeDev] := by
  cases h3 : env.formats.contains pf with
  | false =>
    refine ⟨?_, ?_, ends_with_rollback _ ?_⟩
    · simp only [Snapper.Open, h1, h2, h3]
      simp
      exact (rollback_shape _ rfl).1
    · simp only [Snapper.Open, h1, h2, h3]
      simp
      exact (rollback_shape _ rfl).2.1
    · simp only [Snapper.Open, h1, h2, h3]
      rw [(rollback_shape _ rfl).2.2]
      simp
  | true =>
    cases h4 : (env.frameSizes pf).any (fun fs => Match fs w h) with
    | false =>
      refine ⟨?_, ?_, ends_with_rollback _ ?_⟩
      · simp only [Snapper.Open, h1, h2, h3, h4]
        simp
        exact (rollback_shape _ rfl).1
      · simp only [Snapper.Open, h1, h2, h3, h4]
        simp
        exact (rollback_shape _ rfl).2.1
      · simp only [Snapper.Open, h1, h2, h3, h4]
        rw [(rollback_shape _ rfl).2.2]
        simp
    | true =>
      cases h5 : env.setImageFormat pf w h with
      | error e2 =>
        refine ⟨?_, ?_, ends_with_rollback _ ?_⟩
        · simp only [Snapper.Open, h1, h2, h3, h4, h5]
          simp
          exact (rollback_shape _ rfl).1
        · simp only [Snapper.Open, h1, h2, h3, h4, h5]
          simp
          exact (rollback_shape _ rfl).2.1
        · simp only [Snapper.Open, h1, h2, h3, h4, h5]
          rw [(rollback_shape _ rfl).2.2]
          simp
      | ok t =>
        obtain ⟨npf, nw, nh, stride, size⟩ := t
        cases hg : env.getFramer format w h stride size with
        | error e2 =>
          refine ⟨?_, ?_, ends_with_rollback _ ?_⟩
          · simp only [Snapper.Open, h1, h2, h3, h4, h5, hg]
            simp
            exact (rollback_shape _ rfl).1
          · simp only [Snapper.Open, h1, h2, h3, h4, h5, hg]
            simp
            exact (rollback_shape _ rfl).2.1
          · simp only [Snapper.Open, h1, h2, h3, h4, h5, hg]
            rw [(rollback_shape _ rfl).2.2]
            simp
        | ok u =>
          cases hs : env.startStreaming with
          | error e2 =>
            refine ⟨?_, ?_, ends_with_rollback _ ?_⟩
            · simp only [Snapper.Open, h1, h2, h3, h4, h5, hg, hs]
              simp
              exact (rollback_shape _ rfl).1
            · simp only [Snapper.Open, h1, h2, h3, h4, h5, hg, hs]
              simp
              exact (rollback_shape _ rfl).2.1
            · simp only [Snapper.Open, h1, h2, h3, h4, h5, hg, hs]
              rw [(rollback_shape _ rfl).2.2]
              simp
          | ok u2 =>
            simp only [Snapper.Open, h1, h2, h3, h4, h5, hg, hs] at hres
            simp at hres

/-- Witness for C7 (amended) on the stream-start-failing driver. -/
theorem open_failure_rolls_back_witness :
    (Snapper.Open envStreamFail NewSnapper [] "RGB3" 640 480).2.1.cam =
      none
    ∧ (Snapper.Open envStreamFail NewSnapper [] "RGB3" 640 480).2.1.stream
        = some ⟨true⟩
    ∧ ∃ pre, (Snapper.Open envStreamFail NewSnapper [] "RGB3" 640 480).2.2
        = pre ++ [Ev.closeStream, Ev.stopStreaming, Ev.closeDev] :=
  open_failure_rolls_back envStreamFail NewSnapper [] "RGB3" 640 480 42
    (.driver 7) rfl rfl rfl
